import Mathlib

/-!
Verification of the research-assistant memory/novelty subsystem.

Shallow embedding of the Python sources:
  * `src/memory/service.py`  — `MemoryService` (topic CRUD, search, novelty, stats)
  * `src/memory/models.py`   — `ResearchTopic`, `ResearchDomain`
  * `src/topic/manager.py`   — `TopicManager` (domain resolution, deletion)
  * `src/topic/matcher.py`   — `TopicMatcher.find_matching_domain`
  * `src/agent/core.py`      — `ToolCallLimitCallback`, `ResearchAgent.run` / `arun`
  * `src/agent/tools/memory.py` — `MemoryTools.check_memory`

Conventions: `datetime.utcnow()` values are modelled as integer POSIX seconds
(the code only compares timestamps and takes whole-day differences, so
sub-second resolution is irrelevant); the SQLite tables are modelled as Lean
lists in insertion order (`.first()` on an unordered query returns the first
row in that order, which is the behaviour SQLite exhibits for these simple
queries and the ordering the spec itself stipulates for ties); Python
exceptions are modelled with `Except String`.
-/

/-! ### String helpers (Python `str.lower`, `in`, `strip`, `startswith`) -/

/-- Characters of a string lower-cased, modelling Python `s.lower()`
(all strings compared in the code are ASCII, where `Char.toLower`
agrees with Python). -/
def asLower (s : String) : List Char := s.data.map Char.toLower

/-- `hasSubstr needle hay` models Python `needle in hay` on strings:
contiguous-substring containment. -/
def hasSubstr (needle : List Char) : List Char → Bool
  | [] => needle.isPrefixOf []
  | c :: t => needle.isPrefixOf (c :: t) || hasSubstr needle t

/-- Python `pat in msg.lower()` for an already lower-case ASCII pattern
(the form used by the orchestrator's error classifier). -/
def containsLower (msg : String) (pat : String) : Bool :=
  hasSubstr pat.data (asLower msg)

/-- Python `s.strip()` on both ends. -/
def stripChars (s : List Char) : List Char :=
  ((s.dropWhile Char.isWhitespace).reverse.dropWhile Char.isWhitespace).reverse

/-! ### Data model (`src/memory/models.py`) -/

/-- Row of the `research_topics` table (`ResearchTopic` in `models.py`).
`research_domain_id` is a nullable foreign key, hence `Option Nat`;
nullable text/JSON columns that the code reads through Python truthiness
(`topic.tags and ...`, `topic.sources or []`) are modelled with the falsy
value folded in (`[]` for lists, `Option` for `summary`). -/
structure ResearchTopic where
  id : Nat
  topicName : String
  researchDomainId : Option Nat
  firstResearched : Int
  lastMentioned : Int
  summary : Option String
  sources : List String
  tags : List String
deriving Repr, DecidableEq

/-- Row of the `research_domains` table (`ResearchDomain` in `models.py`). -/
structure ResearchDomain where
  id : Nat
  name : String
  description : String
  keywords : List String
  createdAt : Int
  lastUsed : Int
deriving Repr, DecidableEq

/-! ### Memory service (`src/memory/service.py`) -/

/-- A `MemoryService` instance: the topics table it sees plus the
`current_domain_id` captured at construction. -/
structure MemoryService where
  topics : List ResearchTopic
  currentDomainId : Option Nat
deriving Repr

/-- Python `(utcnow - last_mentioned).days`: `timedelta` normalises so that
`.days` is the floor of the difference in whole days. -/
def daysBetween (now lastMentioned : Int) : Int :=
  Int.fdiv (now - lastMentioned) 86400

namespace MemoryService

/-- `MemoryService.store_topic`: appends a fresh row stamped with the
service's domain id and `now` for both timestamps (the surrogate for
SQLite autoincrement is one more than the table length; no claim depends
on the numeric id values). -/
def storeTopic (svc : MemoryService) (topicName : String)
    (summary : Option String) (sources tags : List String) (now : Int) :
    ResearchTopic × MemoryService :=
  let t : ResearchTopic :=
    { id := svc.topics.length + 1
      topicName := topicName
      researchDomainId := svc.currentDomainId
      firstResearched := now
      lastMentioned := now
      summary := summary
      sources := sources
      tags := tags }
  (t, { svc with topics := svc.topics ++ [t] })

/-- `MemoryService.get_topic_by_name`: exact match compares names with `==`;
fuzzy match is case-insensitive substring containment of the query in the
stored name, first row wins.  The source applies no domain filter here. -/
def getTopicByName (svc : MemoryService) (topicName : String)
    (exactMatch : Bool) : Option ResearchTopic :=
  if exactMatch then
    svc.topics.find? (fun t => t.topicName == topicName)
  else
    svc.topics.find? (fun t => hasSubstr (asLower topicName) (asLower t.topicName))

/-- Whether `search_topics` applies the query filter: Python tests `if query:`,
so `None` and `""` both disable it. -/
def queryActive : Option String → Bool
  | none => false
  | some s => !s.isEmpty

/-- The query predicate of `search_topics`: case-insensitive substring of the
topic name OR of the summary (an SQL `NULL` summary never matches). -/
def queryMatches (q : String) (t : ResearchTopic) : Bool :=
  hasSubstr (asLower q) (asLower t.topicName) ||
    (match t.summary with
     | some sm => hasSubstr (asLower q) (asLower sm)
     | none => false)

/-- Stage 1 of `search_topics`: "Filter by current domain if set". -/
def domainFiltered (svc : MemoryService) : List ResearchTopic :=
  match svc.currentDomainId with
  | some d => svc.topics.filter (fun (t : ResearchTopic) => t.researchDomainId == some d)
  | none => svc.topics

/-- Stage 2 of `search_topics`: "Apply query filter" (`if query:`, so `None`
and the empty string both skip it). -/
def applyQueryFilter (query : Option String) (base : List ResearchTopic) :
    List ResearchTopic :=
  match query with
  | some q => if q.isEmpty then base else base.filter (queryMatches q)
  | none => base

/-- Final stage of `search_topics`: the client-side tag filter after the
fetch (`if tags:` plus `topic.tags and any(tag in topic.tags ...)`). -/
def applyTagFilter (tags : Option (List String)) (paged : List ResearchTopic) :
    List ResearchTopic :=
  match tags with
  | some l =>
      if l.isEmpty then paged
      else paged.filter (fun t => !t.tags.isEmpty && l.any (fun tag => t.tags.contains tag))
  | none => paged

/-- `MemoryService.search_topics`: domain filter (only when the service has a
domain id), then query filter, then order by `last_mentioned` descending
(a stable sort, so ties keep insertion order — the tie order the spec
stipulates), then `LIMIT limit OFFSET offset`, then the client-side tag
filter. -/
def searchTopics (svc : MemoryService) (query : Option String)
    (tags : Option (List String)) (limit offset : Nat) : List ResearchTopic :=
  applyTagFilter tags
    ((((applyQueryFilter query (domainFiltered svc)).insertionSort
        (fun a b => b.lastMentioned ≤ a.lastMentioned)).drop offset).take limit)

/-- The same pipeline with no domain filter at all; used to state that an
unscoped service (and every scoped call path that ignores the scope)
behaves globally. -/
def searchTopicsGlobal (topics : List ResearchTopic) (query : Option String)
    (tags : Option (List String)) (limit offset : Nat) : List ResearchTopic :=
  searchTopics { topics := topics, currentDomainId := none } query tags limit offset

/-- `MemoryService.is_novel`: fuzzy-resolve the name; novel when nothing
matches or the match was last mentioned more than `days_threshold`
whole days ago. -/
def isNovel (svc : MemoryService) (topicName : String) (daysThreshold : Int)
    (now : Int) : Bool :=
  match svc.getTopicByName topicName false with
  | none => true
  | some t => daysBetween now t.lastMentioned > daysThreshold

/-- Result of `MemoryService.get_stats` (the `database_url` entry is
connection metadata with no behaviour and is omitted). -/
structure Stats where
  totalTopics : Nat
  recentTopics7days : Nat
deriving Repr, DecidableEq

/-- `MemoryService.get_stats`: counts ALL topics and all topics mentioned in
the last 7 days — the source applies no domain filter here. -/
def getStats (svc : MemoryService) (now : Int) : Stats :=
  { totalTopics := svc.topics.length
    recentTopics7days :=
      (svc.topics.filter (fun t => now - 7 * 86400 ≤ t.lastMentioned)).length }

end MemoryService

/-! ### Topic manager (`src/topic/manager.py`) -/

/-- One entry of `TopicManager.PRESET_TOPICS` (the `focus_areas` field only
feeds prompt text and is not needed by any claim). -/
structure PresetTopic where
  key : String
  name : String
  description : String
  keywords : List String
deriving Repr, DecidableEq

/-- `TopicManager.PRESET_TOPICS`, in dictionary order. -/
def presetTopics : List PresetTopic :=
  [ { key := "ai-ml", name := "AI/ML"
      description := "Artificial Intelligence and Machine Learning development"
      keywords := ["AI libraries", "ML frameworks", "LLM models", "vector databases",
                   "transformers", "neural networks", "deep learning"] }
  , { key := "cryptocurrency", name := "cryptocurrency"
      description := "Cryptocurrency and blockchain technology"
      keywords := ["blockchain", "DeFi", "smart contracts", "crypto protocols",
                   "NFTs", "DAOs", "exchanges"] }
  , { key := "web3", name := "web3"
      description := "Web3 and decentralized technologies"
      keywords := ["decentralized apps", "IPFS", "decentralized storage",
                   "Web3 infrastructure", "dApps", "DAOs"] }
  , { key := "quantum-computing", name := "quantum-computing"
      description := "Quantum computing and quantum algorithms"
      keywords := ["quantum", "qubits", "quantum algorithms", "quantum hardware",
                   "quantum supremacy", "quantum error correction"] } ]

/-- Python `s.lower()` as a `String` (preset keys are ASCII). -/
def lowerString (s : String) : String := String.mk (asLower s)

/-- `PRESET_TOPICS.get(domain_name.lower())`. -/
def presetLookup (domainName : String) : Option PresetTopic :=
  presetTopics.find? (fun p => p.key == lowerString domainName)

/-- The canonical name a requested domain name resolves to:
`preset["name"] if preset else domain_name` in `get_or_create_domain`. -/
def resolveDomainName (domainName : String) : String :=
  match presetLookup domainName with
  | some p => p.name
  | none => domainName

/-- State of a `TopicManager`: both tables plus the process-lifetime
current-domain pointer (`_current_domain_id` / `_current_domain_name`) and
the autoincrement counter for the `research_domains` primary key. -/
structure TopicManager where
  domains : List ResearchDomain
  topics : List ResearchTopic
  nextDomainId : Nat
  currentDomainId : Option Nat
  currentDomainName : Option String
deriving Repr

/-- In-place `domain.last_used = datetime.utcnow()` on the first row whose
name matches, as the ORM update of the object returned by `.first()`. -/
def bumpFirst (name : String) (t : Int) : List ResearchDomain → List ResearchDomain
  | [] => []
  | d :: ds => if d.name == name then { d with lastUsed := t } :: ds
               else d :: bumpFirst name t ds

namespace TopicManager

/-- The row the create branch of `get_or_create_domain` builds: from the
preset when the requested name is a preset key, else a custom row with a
generated description and no keywords; `created_at`/`last_used` take their
column defaults (`utcnow`, i.e. `now`) and the id is the next autoincrement
value. -/
def createdDomain (st : TopicManager) (domainName : String) (now : Int) :
    ResearchDomain :=
  match presetLookup domainName with
  | some p =>
      { id := st.nextDomainId, name := p.name, description := p.description
        keywords := p.keywords, createdAt := now, lastUsed := now }
  | none =>
      { id := st.nextDomainId, name := domainName
        description := "Custom research domain: " ++ domainName
        keywords := [], createdAt := now, lastUsed := now }

/-- `TopicManager.get_or_create_domain`: resolve a preset key
(case-insensitively) to its canonical display name, look the domain up by
that exact name; if found, bump `last_used` and return it, otherwise create
a row from the preset (or a custom row with a generated description and no
keywords), with `created_at`/`last_used` defaulting to `now`.
Returns the (detached) domain together with the new state. -/
def getOrCreateDomain (st : TopicManager) (domainName : String) (now : Int) :
    ResearchDomain × TopicManager :=
  match st.domains.find? (fun d => d.name == resolveDomainName domainName) with
  | some d =>
      ({ d with lastUsed := now },
       { st with domains := bumpFirst (resolveDomainName domainName) now st.domains })
  | none =>
      (createdDomain st domainName now,
       { st with domains := st.domains ++ [createdDomain st domainName now]
                 nextDomainId := st.nextDomainId + 1 })

/-- `TopicManager.delete_domain`: refuses without `confirm=True`; otherwise
deletes the first domain of that name together with every topic owned by it
(the `cascade="all, delete-orphan"` relationship of `ResearchDomain.topics`),
clears the current-domain pointer when it pointed at the deleted row, and
reports whether anything was deleted. -/
def deleteDomain (st : TopicManager) (domainName : String) (confirm : Bool) :
    Except String (Bool × TopicManager) :=
  if !confirm then
    .error "Must set confirm=True to delete a domain"
  else
    match st.domains.find? (fun d => d.name == domainName) with
    | none => .ok (false, st)
    | some d =>
        .ok (true,
          { st with
            domains := st.domains.filter (fun x => !(x.id == d.id))
            topics := st.topics.filter (fun t => !(t.researchDomainId == some d.id))
            currentDomainId :=
              if st.currentDomainId == some d.id then none else st.currentDomainId
            currentDomainName :=
              if st.currentDomainId == some d.id then none else st.currentDomainName })

end TopicManager

/-! ### LLM topic matcher (`src/topic/matcher.py`) -/

/-- An existing domain as handed to the matcher: `{"name": …, "description": …}`. -/
structure DomainCandidate where
  name : String
  description : String
deriving Repr, DecidableEq

/-- Fuel-indexed worker for `removeMatchTag` (structural recursion on the
fuel so that concrete inputs reduce; the fuel is always at least the list
length, and every step consumes one unit while shortening the list by at
least one character, so the `0, l => l` fallback is never reached). -/
def removeMatchTagFuel : Nat → List Char → List Char
  | 0, l => l
  | _ + 1, [] => []
  | fuel + 1, c :: t =>
      if ("MATCH:".data).isPrefixOf (c :: t) then removeMatchTagFuel fuel (t.drop 5)
      else c :: removeMatchTagFuel fuel t

/-- Python `result.replace("MATCH:", "")`: removes every (non-overlapping,
leftmost-first) occurrence of the 6-character tag. -/
def removeMatchTag (l : List Char) : List Char :=
  removeMatchTagFuel l.length l

/-- `TopicMatcher.find_matching_domain`.  The LLM call is opaque: `llmReply`
is its reply text, `none` standing for the `except` branch (any exception
from the call is caught and yields `None`).  The custom topic only feeds the
prompt, so the result depends only on the candidate list and the reply.
An empty candidate list short-circuits to `None` before the LLM is consulted,
hence independently of `llmReply`. -/
def findMatchingDomain (customTopic : String)
    (existingDomains : List DomainCandidate) (llmReply : Option String) :
    Option String :=
  if existingDomains.isEmpty then none
  else
    match llmReply with
    | none => none
    | some reply =>
        let result := stripChars reply.data
        if ("MATCH:".data).isPrefixOf result then
          let domainName := String.mk (stripChars (removeMatchTag result))
          let validNames := existingDomains.map (fun d => d.name)
          if validNames.contains domainName then some domainName else none
        else none

/-! ### Tool-call budget governor (`ToolCallLimitCallback`, `src/agent/core.py`) -/

/-- Mutable state of a `ToolCallLimitCallback` (the permission callback
itself is a constructor argument and is passed separately to the step
function since it is a function value, not data). -/
structure ToolCallLimitCallback where
  toolCallCount : Nat
  maxCalls : Nat
  permissionGranted : Bool
deriving Repr, DecidableEq

/-- Python `int(self.max_calls * 0.8)`: float truncation.  For every
`max_calls` in the representable range (far beyond any configured limit)
the double rounding of `max_calls * 0.8` stays within the same unit
interval, so the truncated value is exactly `⌊4·max_calls/5⌋`. -/
def warnThreshold (maxCalls : Nat) : Nat := 4 * maxCalls / 5

/-- Everything observable from one `on_tool_start` call: the updated state,
whether the "approaching limit" warning printed, the argument the permission
callback was invoked with (if it was), and the raised exception message
(if any). -/
structure ToolStartResult where
  state : ToolCallLimitCallback
  warned : Bool
  cbInvoked : Option Nat
  error : Option String
deriving Repr

/-- `ToolCallLimitCallback.on_tool_start`: increment the counter; warn when
the new count is at least `int(max_calls * 0.8)`; when the new count is at
least `max_calls`, consult the permission callback if one is registered
(recording its verdict in `permission_granted`) and raise the limit
exception exactly when it denies; with no callback only a message is
printed and nothing is raised. -/
def onToolStart (s : ToolCallLimitCallback) (cb : Option (Nat → Bool)) :
    ToolStartResult :=
  let c := s.toolCallCount + 1
  let warned := decide (c ≥ warnThreshold s.maxCalls)
  if c ≥ s.maxCalls then
    match cb with
    | some f =>
        let granted := f c
        let s' := { s with toolCallCount := c, permissionGranted := granted }
        if granted then
          { state := s', warned := warned, cbInvoked := some c, error := none }
        else
          { state := s', warned := warned, cbInvoked := some c
            error := some ("Tool call limit (" ++ toString s.maxCalls ++
              ") reached. User denied permission to continue.") }
    | none =>
        { state := { s with toolCallCount := c }, warned := warned
          cbInvoked := none, error := none }
  else
    { state := { s with toolCallCount := c }, warned := warned
      cbInvoked := none, error := none }

/-- `ToolCallLimitCallback.reset`. -/
def resetCallback (s : ToolCallLimitCallback) : ToolCallLimitCallback :=
  { s with toolCallCount := 0, permissionGranted := true }

/-- `n` consecutive `on_tool_start` events, threading the state. -/
def iterToolStarts (cb : Option (Nat → Bool)) :
    Nat → ToolCallLimitCallback → ToolCallLimitCallback
  | 0, s => s
  | n + 1, s => iterToolStarts cb n (onToolStart s cb).state

/-! ### Reasoning loop orchestrator (`ResearchAgent.run` / `arun`, `src/agent/core.py`) -/

/-- How one `agent_executor.invoke`/`ainvoke` call ends, as seen by the
`try`/`except` ladder in `run`/`arun`: a normal result, a
`KeyboardInterrupt`, or an `Exception` with message `msg` (the reasoning
cycle itself is opaque; `except Exception` is the catch-all of the source). -/
inductive AgentOutcome where
  | ok (output : String)
  | interrupted
  | failed (msg : String)
deriving Repr, DecidableEq

/-- The structured result dictionary returned by `run`/`arun`
(`intermediate_steps`, `error_type` and the `tool_calls` passthrough carry
no decision logic and are omitted). -/
structure RunResult where
  success : Bool
  output : String
  error : Option String
deriving Repr, DecidableEq

/-- The user-facing message chain of the `except Exception` branch of
`ResearchAgent.run`: substring classification of the lower-cased message. -/
def classifyError (msg : String) : String :=
  if containsLower msg "rate limit" then
    "⚠️ API rate limit reached. Please try again in a moment."
  else if containsLower msg "timeout" then
    "⚠️ Request timed out. Please check your connection and try again."
  else if containsLower msg "api key" || containsLower msg "authentication" then
    "⚠️ Authentication error. Please check your API keys in .env file."
  else if containsLower msg "tool call limit" then
    "🛑 " ++ msg
  else
    "⚠️ An error occurred: " ++ msg

/-- `ResearchAgent.run`: success passes the output through; a
`KeyboardInterrupt` yields the distinct interrupted result; any other
exception is classified and reported with `success = False` and the raw
message preserved in `error`. -/
def runAgent (outcome : AgentOutcome) : RunResult :=
  match outcome with
  | .ok out => { success := true, output := out, error := none }
  | .interrupted =>
      { success := false, output := "Execution interrupted by user."
        error := some "Interrupted by user" }
  | .failed msg =>
      { success := false, output := classifyError msg, error := some msg }

/-- `ResearchAgent.arun`: the asynchronous variant; its `try`/`except`
ladder is textually identical to `run`'s. -/
def arunAgent (outcome : AgentOutcome) : RunResult :=
  match outcome with
  | .ok out => { success := true, output := out, error := none }
  | .interrupted =>
      { success := false, output := "Execution interrupted by user."
        error := some "Interrupted by user" }
  | .failed msg =>
      { success := false, output := classifyError msg, error := some msg }

/-! ### Memory tool `check_memory` (`src/agent/tools/memory.py`) -/

/-- The listing line for one related topic in `check_memory`'s fuzzy branch. -/
def relatedTopicLine (now : Int) (p : Nat × ResearchTopic) : String :=
  toString (p.1 + 1) ++ ". " ++ p.2.topicName ++ " (last mentioned: " ++
    toString (daysBetween now p.2.lastMentioned) ++ " days ago)\n"

/-- `MemoryTools.check_memory`.  When an exact-name match exists the source
first executes the leftover placeholder
`self.memory_service.db.SessionLocal().query(self.memory_service.db.SessionLocal).scalar()`
— `Session.query` applied to a `sessionmaker`, which is not a mapped entity
or column expression, so SQLAlchemy raises `ArgumentError` before the
description below it is ever built; the exception escapes `check_memory`,
which has no handler.  Otherwise the fuzzy branch and the not-found branch
return observation strings. -/
def checkMemory (svc : MemoryService) (query : String) (now : Int) :
    Except String String :=
  match svc.getTopicByName query true with
  | some _ =>
      .error ("ArgumentError: Session.query() got a sessionmaker, " ++
        "which is not a mapped class or column expression")
  | none =>
      let topics := svc.searchTopics (some query) none 5 0
      if topics.isEmpty then
        .ok ("✗ No information found about '" ++ query ++
          "' in memory. This appears to be a novel topic.")
      else
        .ok ("No exact match for '" ++ query ++ "', but found " ++
          toString topics.length ++ " related topics:\n\n" ++
          String.join (topics.enum.map (relatedTopicLine now)))

/-! ### Helper lemmas -/

theorem hasSubstr_self (l : List Char) : hasSubstr l l = true := by
  cases l with
  | nil => rfl
  | cons c t => simp [hasSubstr, List.isPrefixOf_iff_prefix]

theorem hasSubstr_of_isPrefixOf {needle hay : List Char}
    (h : needle.isPrefixOf hay = true) : hasSubstr needle hay = true := by
  cases hay <;> simp [hasSubstr, h]

theorem onToolStart_count (s : ToolCallLimitCallback) (cb : Option (Nat → Bool)) :
    (onToolStart s cb).state.toolCallCount = s.toolCallCount + 1 := by
  cases cb with
  | none => by_cases hc : s.toolCallCount + 1 ≥ s.maxCalls <;> simp [onToolStart, hc]
  | some f =>
      by_cases hc : s.toolCallCount + 1 ≥ s.maxCalls
      · by_cases hg : f (s.toolCallCount + 1) = true <;> simp [onToolStart, hc, hg]
      · simp [onToolStart, hc]

theorem onToolStart_none_error (s : ToolCallLimitCallback) :
    (onToolStart s none).error = none := by
  by_cases hc : s.toolCallCount + 1 ≥ s.maxCalls <;> simp [onToolStart, hc]

theorem iterToolStarts_count (cb : Option (Nat → Bool)) (k : Nat)
    (s : ToolCallLimitCallback) :
    (iterToolStarts cb k s).toolCallCount = s.toolCallCount + k := by
  induction k generalizing s with
  | zero => rfl
  | succ n ih =>
      show (iterToolStarts cb n (onToolStart s cb).state).toolCallCount = _
      rw [ih, onToolStart_count]
      omega

theorem mem_of_applyTagFilter {tg : Option (List String)}
    {l : List ResearchTopic} {t : ResearchTopic}
    (h : t ∈ MemoryService.applyTagFilter tg l) : t ∈ l := by
  cases tg with
  | none => exact h
  | some l' =>
      unfold MemoryService.applyTagFilter at h
      dsimp only at h
      by_cases hl : l'.isEmpty
      · rwa [if_pos hl] at h
      · rw [if_neg hl] at h
        exact (List.mem_filter.mp h).1

theorem mem_of_applyQueryFilter {q : Option String}
    {l : List ResearchTopic} {t : ResearchTopic}
    (h : t ∈ MemoryService.applyQueryFilter q l) : t ∈ l := by
  cases q with
  | none => exact h
  | some s =>
      unfold MemoryService.applyQueryFilter at h
      dsimp only at h
      by_cases hs : s.isEmpty
      · rwa [if_pos hs] at h
      · rw [if_neg hs] at h
        exact (List.mem_filter.mp h).1

theorem daysBetween_self (now : Int) : daysBetween now now = 0 := by
  unfold daysBetween
  rw [sub_self]
  decide

theorem daysBetween_backdated (now : Int) : daysBetween now (now - 864000) = 10 := by
  unfold daysBetween
  rw [show now - (now - 864000) = 864000 from by ring]
  decide

/-! ### C3 — budget governor limit protocol -/

/-- C3: for every session with configured maximum, after exactly `max_calls`
tool-start events with no permission callback the counter equals `max_calls`
and no call raises; with a registered callback that denies, the event that
brings the counter to `max_calls` raises an error whose message contains
"Tool call limit"; if the callback grants, the session continues; and
`reset()` returns the counter to 0 and the permission flag to true without
itself counting as a call. -/
theorem budget_governor_limit_protocol :
    (∀ M : Nat,
      (iterToolStarts none M { toolCallCount := 0, maxCalls := M, permissionGranted := true }).toolCallCount = M)
    ∧ (∀ s : ToolCallLimitCallback, (onToolStart s none).error = none)
    ∧ (∀ (s : ToolCallLimitCallback) (f : Nat → Bool),
        s.toolCallCount + 1 = s.maxCalls → f s.maxCalls = false →
        ∃ msg, (onToolStart s (some f)).error = some msg ∧
          hasSubstr ("Tool call limit".data) msg.data = true)
    ∧ (∀ (s : ToolCallLimitCallback) (f : Nat → Bool),
        f (s.toolCallCount + 1) = true → (onToolStart s (some f)).error = none)
    ∧ (∀ s : ToolCallLimitCallback,
        (resetCallback s).toolCallCount = 0 ∧ (resetCallback s).permissionGranted = true
          ∧ (resetCallback s).maxCalls = s.maxCalls) := by
  refine ⟨?_, onToolStart_none_error, ?_, ?_, fun s => ⟨rfl, rfl, rfl⟩⟩
  · intro M
    rw [iterToolStarts_count]
    exact Nat.zero_add M
  · intro s f hcount hdeny
    have hc : s.toolCallCount + 1 ≥ s.maxCalls := by omega
    have hg : f (s.toolCallCount + 1) = false := by rw [hcount]; exact hdeny
    refine ⟨"Tool call limit (" ++ toString s.maxCalls ++
      ") reached. User denied permission to continue.", ?_, ?_⟩
    · simp [onToolStart, hc, hg]
    · apply hasSubstr_of_isPrefixOf
      rw [List.isPrefixOf_iff_prefix]
      exact ⟨(" (" ++ toString s.maxCalls ++ ") reached. User denied permission to continue.").data,
        by simp [String.data_append]⟩
  · intro s f hgrant
    by_cases hc : s.toolCallCount + 1 ≥ s.maxCalls <;> simp [onToolStart, hc, hgrant]

/-- C3 witness: concrete instantiation with maximum 3 — three uncounted calls
reach the counter 3 without an exception, the denying callback raises on the
third call, a granting callback does not, and reset zeroes the counter. -/
theorem budget_governor_limit_protocol_witness :
    (iterToolStarts none 3 { toolCallCount := 0, maxCalls := 3, permissionGranted := true }).toolCallCount = 3
    ∧ (∃ msg, (onToolStart { toolCallCount := 2, maxCalls := 3, permissionGranted := true }
        (some (fun _ => false))).error = some msg ∧
        hasSubstr ("Tool call limit".data) msg.data = true)
    ∧ (onToolStart { toolCallCount := 2, maxCalls := 3, permissionGranted := true }
        (some (fun _ => true))).error = none
    ∧ (resetCallback { toolCallCount := 3, maxCalls := 3, permissionGranted := false }).toolCallCount = 0 :=
  ⟨budget_governor_limit_protocol.1 3,
   budget_governor_limit_protocol.2.2.1 _ (fun _ => false) (by decide) rfl,
   budget_governor_limit_protocol.2.2.2.1 _ (fun _ => true) rfl,
   (budget_governor_limit_protocol.2.2.2.2 _).1⟩

/-! ### C6 — the 80% warning threshold -/

/-- C6 counterexample: with maximum 7, the tool-start event that raises the
counter to 5 emits the approaching-limit warning although 5 is NOT at least
80% of 7 (`0.8 · 7 = 5.6`): the code compares against the truncated
`int(max_calls * 0.8) = 5`, not against `0.8 · max_calls`. -/
theorem warning_threshold_counterexample :
    (onToolStart { toolCallCount := 4, maxCalls := 7, permissionGranted := true } none).warned = true
    ∧ ¬((5 : ℚ) ≥ 0.8 * 7) := by
  constructor
  · decide
  · norm_num

/-- C6 amended: the warning is emitted if and only if the just-incremented
counter is at least `⌊0.8 · max_calls⌋` (the value of
`int(max_calls * 0.8)`), and the warning never interferes with the call:
the counter always advances by one and an exception can arise only from the
limit branch (new counter at least `max_calls`), never from the warning. -/
theorem warning_at_truncated_threshold (s : ToolCallLimitCallback)
    (cb : Option (Nat → Bool)) :
    ((onToolStart s cb).warned = true ↔ s.toolCallCount + 1 ≥ warnThreshold s.maxCalls)
    ∧ (onToolStart s cb).state.toolCallCount = s.toolCallCount + 1
    ∧ ((onToolStart s cb).error ≠ none → s.toolCallCount + 1 ≥ s.maxCalls) := by
  refine ⟨?_, onToolStart_count s cb, ?_⟩
  · cases cb with
    | none => by_cases hc : s.toolCallCount + 1 ≥ s.maxCalls <;> simp [onToolStart, hc]
    | some f =>
        by_cases hc : s.toolCallCount + 1 ≥ s.maxCalls
        · by_cases hg : f (s.toolCallCount + 1) = true <;> simp [onToolStart, hc, hg]
        · simp [onToolStart, hc]
  · intro herr
    by_contra hc
    cases cb with
    | none => simp [onToolStart, hc] at herr
    | some f => simp [onToolStart, hc] at herr

/-- C6 witness: with maximum 5, the 4th call warns (4 = ⌊0.8·5⌋) and with a
denying callback at maximum the exception indeed comes from the limit
branch. -/
theorem warning_at_truncated_threshold_witness :
    (onToolStart { toolCallCount := 3, maxCalls := 5, permissionGranted := true } none).warned = true
    ∧ (4 : Nat) + 1 ≥ 5 :=
  ⟨(warning_at_truncated_threshold { toolCallCount := 3, maxCalls := 5, permissionGranted := true }
      none).1.mpr (by decide),
   (warning_at_truncated_threshold { toolCallCount := 4, maxCalls := 5, permissionGranted := true }
      (some (fun _ => false))).2.2 (by decide)⟩

/-! ### C10 — the limit check applies to every call at or past the maximum -/

/-- C10: once the counter is at or past the configured maximum, every further
tool-start event re-invokes the registered permission callback with the
just-incremented count and raises exactly when it denies; with no callback,
or with one that keeps granting, the counter keeps growing without bound
(`k` further events always add `k`). -/
theorem limit_check_reapplies_past_maximum :
    (∀ (s : ToolCallLimitCallback) (f : Nat → Bool), s.toolCallCount ≥ s.maxCalls →
      (onToolStart s (some f)).cbInvoked = some (s.toolCallCount + 1)
      ∧ ((onToolStart s (some f)).error ≠ none ↔ f (s.toolCallCount + 1) = false))
    ∧ (∀ (s : ToolCallLimitCallback) (k : Nat),
        (iterToolStarts none k s).toolCallCount = s.toolCallCount + k)
    ∧ (∀ (s : ToolCallLimitCallback) (k : Nat) (f : Nat → Bool), (∀ n, f n = true) →
        (iterToolStarts (some f) k s).toolCallCount = s.toolCallCount + k) := by
  refine ⟨?_, fun s k => iterToolStarts_count none k s,
    fun s k f _ => iterToolStarts_count (some f) k s⟩
  intro s f hpast
  have hc : s.toolCallCount + 1 ≥ s.maxCalls := by omega
  by_cases hg : f (s.toolCallCount + 1) = true
  · constructor
    · simp [onToolStart, hc, hg]
    · simp [onToolStart, hc, hg]
  · constructor
    · simp [onToolStart, hc, hg]
    · simp [onToolStart, hc, hg]

/-- C10 witness: a callback state already past its maximum of 3 re-invokes a
denying callback with count 6 on the next call, and 4 events with no
callback advance the counter from 2 to 6. -/
theorem limit_check_reapplies_past_maximum_witness :
    (onToolStart { toolCallCount := 5, maxCalls := 3, permissionGranted := true }
      (some (fun _ => false))).cbInvoked = some 6
    ∧ (iterToolStarts none 4 { toolCallCount := 2, maxCalls := 3, permissionGranted := true }).toolCallCount = 6 :=
  ⟨(limit_check_reapplies_past_maximum.1
      { toolCallCount := 5, maxCalls := 3, permissionGranted := true } (fun _ => false) (by decide)).1,
   limit_check_reapplies_past_maximum.2.1
      { toolCallCount := 2, maxCalls := 3, permissionGranted := true } 4⟩

/-! ### C9 — the matcher only returns supplied candidate names -/

/-- C9: whatever reply the opaque LLM produces (including none at all, i.e.
an exception), `find_matching_domain` returns either `none` or a name that
literally equals the name of one of the supplied candidates, and with an
empty candidate list it returns `none` for every possible reply, i.e.
without consulting the LLM. -/
theorem matcher_returns_only_candidates :
    (∀ (customTopic : String) (ds : List DomainCandidate) (reply : Option String) (n : String),
      findMatchingDomain customTopic ds reply = some n → n ∈ ds.map (fun d => d.name))
    ∧ (∀ (customTopic : String) (reply : Option String),
      findMatchingDomain customTopic [] reply = none) := by
  constructor
  · intro ct ds reply n h
    unfold findMatchingDomain at h
    split_ifs at h with hemp
    cases reply with
    | none => simp at h
    | some r =>
        dsimp only at h
        split_ifs at h with hpre hmem
        all_goals try simp at h
        subst h
        have := List.mem_of_elem_eq_true hmem
        simpa using this
  · intro ct reply
    unfold findMatchingDomain
    simp

/-- C9 witness: with the single candidate AI/ML and the reply
"MATCH: AI/ML", the accepted name is a member of the candidate list. -/
theorem matcher_returns_only_candidates_witness :
    "AI/ML" ∈ ([⟨"AI/ML", "Artificial Intelligence"⟩] : List DomainCandidate).map
      (fun d => d.name) :=
  matcher_returns_only_candidates.1 "machine learning"
    [⟨"AI/ML", "Artificial Intelligence"⟩] (some "MATCH: AI/ML") "AI/ML" (by decide)

/-! ### C4 — run/arun convert every exception into a structured result -/

/-- C4: neither `run` nor `arun` propagates an exception: both are total on
the outcome of the reasoning cycle and agree with each other; an exception
yields `success = false`, the raw message preserved in `error`, and a
human-readable output that is exactly one of the five substring-classified
forms (rate limit, timeout, authentication, tool-call limit, other); a
keyboard interrupt yields the distinct "Interrupted by user" result rather
than an error classification. -/
theorem run_converts_exceptions_to_results (outcome : AgentOutcome) :
    (runAgent outcome = arunAgent outcome)
    ∧ (∀ msg, outcome = .failed msg →
        (runAgent outcome).success = false
        ∧ (runAgent outcome).error = some msg
        ∧ ((runAgent outcome).output = "⚠️ API rate limit reached. Please try again in a moment."
            ∨ (runAgent outcome).output = "⚠️ Request timed out. Please check your connection and try again."
            ∨ (runAgent outcome).output = "⚠️ Authentication error. Please check your API keys in .env file."
            ∨ (runAgent outcome).output = "🛑 " ++ msg
            ∨ (runAgent outcome).output = "⚠️ An error occurred: " ++ msg)
        ∧ (containsLower msg "rate limit" = true →
            (runAgent outcome).output = "⚠️ API rate limit reached. Please try again in a moment.")
        ∧ (containsLower msg "tool call limit" = true →
            containsLower msg "rate limit" = false → containsLower msg "timeout" = false →
            containsLower msg "api key" = false → containsLower msg "authentication" = false →
            (runAgent outcome).output = "🛑 " ++ msg))
    ∧ (outcome = .interrupted →
        (runAgent outcome).success = false
        ∧ (runAgent outcome).error = some "Interrupted by user"
        ∧ (runAgent outcome).output = "Execution interrupted by user.")
    ∧ (∀ out, outcome = .ok out →
        (runAgent outcome).success = true ∧ (runAgent outcome).output = out) := by
  refine ⟨?_, ?_, ?_, ?_⟩
  · cases outcome <;> rfl
  · rintro msg rfl
    refine ⟨rfl, rfl, ?_, ?_, ?_⟩
    · show classifyError msg = _ ∨ classifyError msg = _ ∨ classifyError msg = _
        ∨ classifyError msg = _ ∨ classifyError msg = _
      unfold classifyError
      split_ifs <;> simp
    · intro hrl
      show classifyError msg = _
      unfold classifyError
      simp [hrl]
    · intro htl hrl hto hak hau
      show classifyError msg = _
      unfold classifyError
      simp [hrl, hto, hak, hau, htl]
  · rintro rfl
    exact ⟨rfl, rfl, rfl⟩
  · rintro out rfl
    exact ⟨rfl, rfl⟩

/-- C4 witness: a concrete rate-limit exception is converted, not
propagated: success is false, the raw message is preserved, and the output
is the rate-limit classification. -/
theorem run_converts_exceptions_to_results_witness :
    (runAgent (.failed "OpenAI rate limit exceeded")).success = false
    ∧ (runAgent (.failed "OpenAI rate limit exceeded")).error = some "OpenAI rate limit exceeded"
    ∧ (runAgent (.failed "OpenAI rate limit exceeded")).output =
        "⚠️ API rate limit reached. Please try again in a moment." :=
  ⟨((run_converts_exceptions_to_results (.failed "OpenAI rate limit exceeded")).2.1
      "OpenAI rate limit exceeded" rfl).1,
   ((run_converts_exceptions_to_results (.failed "OpenAI rate limit exceeded")).2.1
      "OpenAI rate limit exceeded" rfl).2.1,
   ((run_converts_exceptions_to_results (.failed "OpenAI rate limit exceeded")).2.1
      "OpenAI rate limit exceeded" rfl).2.2.2.1 (by decide)⟩

/-! ### C5 — `check_memory` raises on an exact match (code bug) -/

/-- C5: contrary to the tools-never-raise contract, `check_memory` raises on
the very input the claim singles out: with the topic "LangChain v0.3"
stored under exactly that name, querying it hits the leftover placeholder
`SessionLocal().query(SessionLocal).scalar()` and the SQLAlchemy
`ArgumentError` escapes instead of the description of the stored topic;
only the no-exact-match branches return observation strings. -/
theorem check_memory_raises_on_exact_match :
    checkMemory
      { topics := [{ id := 1, topicName := "LangChain v0.3", researchDomainId := none
                     firstResearched := 0, lastMentioned := 0
                     summary := some "New version of LangChain with improved features"
                     sources := ["https://langchain.com"], tags := ["langchain"] }]
        currentDomainId := none }
      "LangChain v0.3" 3600 =
    .error ("ArgumentError: Session.query() got a sessionmaker, " ++
      "which is not a mapped class or column expression")
    ∧ checkMemory { topics := [], currentDomainId := none } "LangChain v0.3" 3600 =
      .ok ("✗ No information found about 'LangChain v0.3' in memory. " ++
        "This appears to be a novel topic.") := by
  constructor <;> rfl

/-! ### C2 — novelty semantics of `is_novel` -/

/-- C2: `is_novel(n, d)` is true exactly when no stored topic fuzzy-matches
`n` (case-insensitive substring, first match wins) or the matched topic's
last-mentioned is more than `d` whole days before now; on an empty memory
every name is novel; storing a name into an empty memory makes it
immediately non-novel under the default 7-day threshold; and backdating
that topic's last-mentioned by 10 days makes it novel again. -/
theorem is_novel_semantics :
    (∀ (svc : MemoryService) (n : String) (d now : Int),
      svc.isNovel n d now = true ↔
        (svc.getTopicByName n false = none
          ∨ ∃ t, svc.getTopicByName n false = some t ∧ daysBetween now t.lastMentioned > d))
    ∧ (∀ (dom : Option Nat) (n : String) (d now : Int),
        MemoryService.isNovel { topics := [], currentDomainId := dom } n d now = true)
    ∧ (∀ (dom : Option Nat) (n : String) (summary : Option String)
        (sources tags : List String) (now : Int),
        let stored := MemoryService.storeTopic
          { topics := [], currentDomainId := dom } n summary sources tags now
        stored.2.isNovel n 7 now = false
        ∧ MemoryService.isNovel
            { topics := [{ stored.1 with lastMentioned := now - 10 * 86400 }]
              currentDomainId := dom } n 7 now = true) := by
  refine ⟨?_, ?_, ?_⟩
  · intro svc n d now
    unfold MemoryService.isNovel
    cases hfind : svc.getTopicByName n false with
    | none => simp
    | some t => simp [hfind]
  · intro dom n d now
    rfl
  · intro dom n summary sources tags now
    have hmatch : hasSubstr (asLower n) (asLower n) = true := hasSubstr_self _
    constructor
    · show MemoryService.isNovel _ n 7 now = false
      simp only [MemoryService.storeTopic, MemoryService.isNovel,
        MemoryService.getTopicByName, List.nil_append, List.find?_cons]
      simp [hmatch, daysBetween_self]
    · simp only [MemoryService.storeTopic, MemoryService.isNovel,
        MemoryService.getTopicByName, List.find?_cons]
      simp [hmatch]
      rw [daysBetween_backdated]
      decide

/-! ### C1 — which queries are domain-scoped -/

/-- C1 counterexample: a service constructed for domain 1 still returns, via
`get_topic_by_name`, a topic owned by domain 2, and `get_stats` counts it —
neither applies the domain filter the claim asserts (only `search_topics`
does). -/
theorem memory_scoping_counterexample :
    MemoryService.getTopicByName
      { topics := [{ id := 1, topicName := "X", researchDomainId := some 2
                     firstResearched := 0, lastMentioned := 0
                     summary := none, sources := [], tags := [] }]
        currentDomainId := some 1 } "X" true =
      some { id := 1, topicName := "X", researchDomainId := some 2
             firstResearched := 0, lastMentioned := 0
             summary := none, sources := [], tags := [] }
    ∧ (MemoryService.getStats
        { topics := [{ id := 1, topicName := "X", researchDomainId := some 2
                       firstResearched := 0, lastMentioned := 0
                       summary := none, sources := [], tags := [] }]
          currentDomainId := some 1 } 100).totalTopics = 1
    ∧ (some 2 : Option Nat) ≠ some 1 := by
  refine ⟨by decide, by decide, by decide⟩

/-- C1 amended: only `search_topics` is domain-scoped — for a service with a
domain id it returns only topics owned by that domain — while
`get_topic_by_name` and `get_stats` ignore the service's domain id entirely
(they behave exactly as for a service constructed without one), and a
service constructed without a domain id is globally unfiltered in all three
operations. -/
theorem memory_scoping_amended :
    (∀ (topics : List ResearchTopic) (dom : Option Nat) (n : String) (e : Bool),
      MemoryService.getTopicByName { topics := topics, currentDomainId := dom } n e =
        MemoryService.getTopicByName { topics := topics, currentDomainId := none } n e)
    ∧ (∀ (topics : List ResearchTopic) (dom : Option Nat) (now : Int),
        MemoryService.getStats { topics := topics, currentDomainId := dom } now =
          MemoryService.getStats { topics := topics, currentDomainId := none } now)
    ∧ (∀ (topics : List ResearchTopic) (d : Nat) (q : Option String)
        (tg : Option (List String)) (lim off : Nat) (t : ResearchTopic),
        t ∈ MemoryService.searchTopics { topics := topics, currentDomainId := some d }
          q tg lim off → t.researchDomainId = some d)
    ∧ (∀ (topics : List ResearchTopic) (q : Option String)
        (tg : Option (List String)) (lim off : Nat),
        MemoryService.searchTopics { topics := topics, currentDomainId := none }
          q tg lim off = MemoryService.searchTopicsGlobal topics q tg lim off) := by
  refine ⟨fun _ _ _ _ => rfl, fun _ _ _ => rfl, ?_, fun _ _ _ _ _ => rfl⟩
  intro topics d q tg lim off t h
  unfold MemoryService.searchTopics at h
  replace h := mem_of_applyTagFilter h
  replace h := List.drop_subset _ _ (List.take_subset _ _ h)
  replace h := (List.mem_insertionSort _).mp h
  replace h := mem_of_applyQueryFilter h
  have hmem : t ∈ List.filter
      (fun (u : ResearchTopic) => u.researchDomainId == some d) topics := h
  have := (List.mem_filter.mp hmem).2
  simpa using this

/-- C1 amended witness: a domain-2 service's search returns the domain-2
topic, whose owning domain the theorem then pins to 2. -/
theorem memory_scoping_amended_witness :
    ({ id := 1, topicName := "Y", researchDomainId := some 2, firstResearched := 0
       lastMentioned := 0, summary := none, sources := [], tags := [] } :
      ResearchTopic).researchDomainId = some 2 :=
  memory_scoping_amended.2.2.1
    [{ id := 1, topicName := "Y", researchDomainId := some 2, firstResearched := 0
       lastMentioned := 0, summary := none, sources := [], tags := [] }]
    2 none none 10 0 _ (by decide)

/-! ### C7 — `delete_domain` semantics -/

/-- C7: `delete_domain` raises exactly when `confirm` is not true (even for a
nonexistent domain); with `confirm` and an existing domain of that name it
returns true and removes that domain together with precisely the topics
owned by it — topics of other domains and unscoped topics survive — and the
current-domain pointer is cleared exactly when it pointed at the deleted
domain; with `confirm` and no such domain it returns false and changes
nothing. -/
theorem delete_domain_semantics :
    (∀ (st : TopicManager) (name : String),
      TopicManager.deleteDomain st name false =
        .error "Must set confirm=True to delete a domain")
    ∧ (∀ (st : TopicManager) (name : String), ∃ r,
        TopicManager.deleteDomain st name true = .ok r)
    ∧ (∀ (st : TopicManager) (name : String),
        st.domains.find? (fun d => d.name == name) = none →
        TopicManager.deleteDomain st name true = .ok (false, st))
    ∧ (∀ (st : TopicManager) (name : String) (d : ResearchDomain),
        st.domains.find? (fun d => d.name == name) = some d →
        ∃ st', TopicManager.deleteDomain st name true = .ok (true, st')
          ∧ (∀ t : ResearchTopic,
              t ∈ st'.topics ↔ t ∈ st.topics ∧ t.researchDomainId ≠ some d.id)
          ∧ (∀ x : ResearchDomain, x ∈ st'.domains ↔ x ∈ st.domains ∧ x.id ≠ d.id)
          ∧ st'.currentDomainId =
              (if st.currentDomainId = some d.id then none else st.currentDomainId)) := by
  refine ⟨fun st name => rfl, ?_, ?_, ?_⟩
  · intro st name
    unfold TopicManager.deleteDomain
    cases hfind : st.domains.find? (fun d => d.name == name) with
    | none => exact ⟨(false, st), rfl⟩
    | some d => exact ⟨_, rfl⟩
  · intro st name hfind
    unfold TopicManager.deleteDomain
    simp [hfind]
  · intro st name d hfind
    unfold TopicManager.deleteDomain
    rw [hfind]
    refine ⟨{ domains := st.domains.filter (fun x => !(x.id == d.id))
              topics := st.topics.filter (fun t => !(t.researchDomainId == some d.id))
              nextDomainId := st.nextDomainId
              currentDomainId :=
                if st.currentDomainId == some d.id then none else st.currentDomainId
              currentDomainName :=
                if st.currentDomainId == some d.id then none else st.currentDomainName },
      rfl, ?_, ?_, ?_⟩
    · intro t
      simp [List.mem_filter]
    · intro x
      simp [List.mem_filter]
    · by_cases hcur : st.currentDomainId = some d.id
      · simp [hcur]
      · simp [hcur]

/-- C7 witness: deleting domain "A" (id 1) with `confirm` from a concrete
state keeps the domain-2 topic and the unscoped topic, drops the domain-1
topic, and clears the pointer that pointed at "A"; without `confirm` it
raises; deleting an absent name returns false. -/
theorem delete_domain_semantics_witness :
    TopicManager.deleteDomain
      { domains := [{ id := 1, name := "A", description := "", keywords := []
                      createdAt := 0, lastUsed := 0 }]
        topics := [], nextDomainId := 2, currentDomainId := some 1
        currentDomainName := some "A" } "A" false =
      .error "Must set confirm=True to delete a domain"
    ∧ TopicManager.deleteDomain
        { domains := [], topics := [], nextDomainId := 1, currentDomainId := none
          currentDomainName := none } "A" true =
      .ok (false, { domains := [], topics := [], nextDomainId := 1
                    currentDomainId := none, currentDomainName := none })
    ∧ (∃ st', TopicManager.deleteDomain
        { domains := [{ id := 1, name := "A", description := "", keywords := []
                        createdAt := 0, lastUsed := 0 }]
          topics := [{ id := 7, topicName := "t2", researchDomainId := some 2
                       firstResearched := 0, lastMentioned := 0, summary := none
                       sources := [], tags := [] }]
          nextDomainId := 2, currentDomainId := some 1
          currentDomainName := some "A" } "A" true = .ok (true, st')
        ∧ ({ id := 7, topicName := "t2", researchDomainId := some 2
             firstResearched := 0, lastMentioned := 0, summary := none
             sources := [], tags := [] } : ResearchTopic) ∈ st'.topics) := by
  refine ⟨delete_domain_semantics.1 _ "A", delete_domain_semantics.2.2.1 _ "A" rfl, ?_⟩
  obtain ⟨st', heq, htop, -, -⟩ :=
    delete_domain_semantics.2.2.2
      { domains := [{ id := 1, name := "A", description := "", keywords := []
                      createdAt := 0, lastUsed := 0 }]
        topics := [{ id := 7, topicName := "t2", researchDomainId := some 2
                     firstResearched := 0, lastMentioned := 0, summary := none
                     sources := [], tags := [] }]
        nextDomainId := 2, currentDomainId := some 1
        currentDomainName := some "A" } "A"
      { id := 1, name := "A", description := "", keywords := []
        createdAt := 0, lastUsed := 0 } rfl
  exact ⟨st', heq, (htop _).mpr ⟨by decide, by decide⟩⟩

/-! ### C8 — idempotent domain resolution with a last-used bump -/

theorem bumpFirst_length (n : String) (t : Int) (l : List ResearchDomain) :
    (bumpFirst n t l).length = l.length := by
  induction l with
  | nil => rfl
  | cons d ds ih =>
      unfold bumpFirst
      by_cases h : d.name == n
      · simp [h]
      · simp [h, ih]

theorem find?_bumpFirst (n : String) (t : Int) (l : List ResearchDomain) :
    (bumpFirst n t l).find? (fun d => d.name == n) =
      (l.find? (fun d => d.name == n)).map
        (fun d => { d with lastUsed := t }) := by
  induction l with
  | nil => rfl
  | cons d ds ih =>
      unfold bumpFirst
      by_cases h : d.name == n
      · rw [if_pos h, List.find?_cons, List.find?_cons]
        simp [h]
      · rw [if_neg h, List.find?_cons, List.find?_cons]
        simp [h, ih]

theorem createdDomain_name (st : TopicManager) (name : String) (t : Int) :
    (TopicManager.createdDomain st name t).name = resolveDomainName name := by
  unfold TopicManager.createdDomain resolveDomainName
  cases presetLookup name <;> rfl

theorem createdDomain_lastUsed (st : TopicManager) (name : String) (t : Int) :
    (TopicManager.createdDomain st name t).lastUsed = t := by
  unfold TopicManager.createdDomain
  cases presetLookup name <;> rfl

theorem getOrCreateDomain_found (st : TopicManager) (name : String) (t : Int)
    (d : ResearchDomain)
    (h : st.domains.find? (fun x => x.name == resolveDomainName name) = some d) :
    st.getOrCreateDomain name t =
      ({ d with lastUsed := t },
       { st with domains := bumpFirst (resolveDomainName name) t st.domains }) := by
  unfold TopicManager.getOrCreateDomain
  rw [h]

theorem getOrCreateDomain_created (st : TopicManager) (name : String) (t : Int)
    (h : st.domains.find? (fun x => x.name == resolveDomainName name) = none) :
    st.getOrCreateDomain name t =
      (TopicManager.createdDomain st name t,
       { st with domains := st.domains ++ [TopicManager.createdDomain st name t]
                 nextDomainId := st.nextDomainId + 1 }) := by
  unfold TopicManager.getOrCreateDomain
  rw [h]

theorem getOrCreateDomain_find (st : TopicManager) (name : String) (t : Int) :
    (st.getOrCreateDomain name t).2.domains.find?
        (fun x => x.name == resolveDomainName name) =
      some (st.getOrCreateDomain name t).1 := by
  cases hfind : st.domains.find? (fun x => x.name == resolveDomainName name) with
  | some d =>
      rw [getOrCreateDomain_found st name t d hfind]
      dsimp only
      rw [find?_bumpFirst, hfind]
      rfl
  | none =>
      rw [getOrCreateDomain_created st name t hfind]
      dsimp only
      rw [List.find?_append, hfind]
      have hname : ((TopicManager.createdDomain st name t).name ==
          resolveDomainName name) = true := by
        simp [createdDomain_name]
      rw [Option.none_or]
      simp [hname]

theorem getOrCreateDomain_lastUsed (st : TopicManager) (name : String) (t : Int) :
    (st.getOrCreateDomain name t).1.lastUsed = t := by
  cases hfind : st.domains.find? (fun x => x.name == resolveDomainName name) with
  | some d => rw [getOrCreateDomain_found st name t d hfind]
  | none =>
      rw [getOrCreateDomain_created st name t hfind]
      exact createdDomain_lastUsed st name t

theorem getOrCreateDomain_name (st : TopicManager) (name : String) (t : Int) :
    (st.getOrCreateDomain name t).1.name = resolveDomainName name := by
  cases hfind : st.domains.find? (fun x => x.name == resolveDomainName name) with
  | some d =>
      rw [getOrCreateDomain_found st name t d hfind]
      have := List.find?_some hfind
      simpa using this
  | none =>
      rw [getOrCreateDomain_created st name t hfind]
      exact createdDomain_name st name t

/-- C8: resolving the same domain name twice in a row returns the same
domain identifier both times and creates no second row (the domain count is
unchanged by the second resolution); both returned rows carry the
resolution timestamp as `last_used`, so the domain's last-used strictly
increases between the two calls; and both resolutions go through the
case-insensitive preset lookup, returning a row whose name is the preset's
canonical display name when the request matches a preset key (else the raw
custom name). -/
theorem resolve_domain_twice (st : TopicManager) (name : String) (t1 t2 : Int)
    (h12 : t1 < t2) :
    ((st.getOrCreateDomain name t1).2.getOrCreateDomain name t2).1.id
        = (st.getOrCreateDomain name t1).1.id
    ∧ ((st.getOrCreateDomain name t1).2.getOrCreateDomain name t2).2.domains.length
        = (st.getOrCreateDomain name t1).2.domains.length
    ∧ (st.getOrCreateDomain name t1).1.lastUsed = t1
    ∧ ((st.getOrCreateDomain name t1).2.getOrCreateDomain name t2).1.lastUsed = t2
    ∧ (st.getOrCreateDomain name t1).1.lastUsed
        < ((st.getOrCreateDomain name t1).2.getOrCreateDomain name t2).1.lastUsed
    ∧ (st.getOrCreateDomain name t1).1.name = resolveDomainName name
    ∧ ((st.getOrCreateDomain name t1).2.getOrCreateDomain name t2).1.name
        = resolveDomainName name := by
  have hsecond := getOrCreateDomain_found (st.getOrCreateDomain name t1).2 name t2
    (st.getOrCreateDomain name t1).1 (getOrCreateDomain_find st name t1)
  refine ⟨?_, ?_, getOrCreateDomain_lastUsed st name t1, ?_, ?_,
    getOrCreateDomain_name st name t1, getOrCreateDomain_name _ name t2⟩
  · rw [hsecond]
  · rw [hsecond]
    dsimp only
    exact bumpFirst_length _ _ _
  · rw [hsecond]
  · rw [hsecond, getOrCreateDomain_lastUsed st name t1]
    exact h12

/-- C8 witness: resolving the preset key "Ai-Ml" twice from an empty store
at times 50 then 60 returns id 1 both times, leaves exactly one domain row,
bumps last-used from 50 to 60, and yields the canonical display name
"AI/ML" both times. -/
theorem resolve_domain_twice_witness :
    (let st0 : TopicManager :=
      { domains := [], topics := [], nextDomainId := 1
        currentDomainId := none, currentDomainName := none }
     ((st0.getOrCreateDomain "Ai-Ml" 50).2.getOrCreateDomain "Ai-Ml" 60).1.id
        = (st0.getOrCreateDomain "Ai-Ml" 50).1.id
     ∧ ((st0.getOrCreateDomain "Ai-Ml" 50).2.getOrCreateDomain "Ai-Ml" 60).2.domains.length
        = (st0.getOrCreateDomain "Ai-Ml" 50).2.domains.length
     ∧ (st0.getOrCreateDomain "Ai-Ml" 50).1.lastUsed
        < ((st0.getOrCreateDomain "Ai-Ml" 50).2.getOrCreateDomain "Ai-Ml" 60).1.lastUsed
     ∧ (st0.getOrCreateDomain "Ai-Ml" 50).1.name = "AI/ML") := by
  have h := resolve_domain_twice
    { domains := [], topics := [], nextDomainId := 1
      currentDomainId := none, currentDomainName := none } "Ai-Ml" 50 60 (by decide)
  refine ⟨h.1, h.2.1, h.2.2.2.2.1, ?_⟩
  rw [h.2.2.2.2.2.1]
  decide
